import Mathlib

/-!
Verification of the CO2 dashboard notebook
(`co2_dashboard_practice/co2_data_visualization_project.ipynb`).

The notebook loads the OWID CO2 dataset into a pandas dataframe `df`,
cleans it (`df = df.fillna(0)`; `df['gdp_per_capita'] =
np.where(df['population']!=0, df['gdp']/df['population'], 0)`), wraps it
interactively (`idf = df.interactive()`), and derives three pipelines:

* `co2_pipeline`: rows with `year <= year_slider` and `country` in the
  eight-element `continents` list, grouped by `(country, year)`, taking
  the mean of the widget-selected CO2 column, sorted by year;
* `co2_vs_gdp_scatterplot_pipeline`: rows with `year == year_slider` and
  `country` not in `continents`, grouped by
  `(country, year, gdp_per_capita)`, taking the mean of `co2`;
* `co2_source_bar_pipeline`: rows with `year == year_slider` and
  `country` in the seven-element `continents_excl_world` list, grouped by
  `(year, country)`, taking the sum of the widget-selected sub-source
  column.

A cell of a numeric column is modelled as `Option ℚ`, with `none` the
missing-value marker (pandas `NaN`).  The columns modelled are exactly
the ones the notebook reads or writes.
-/

/-- A numeric dataframe cell: `none` is the missing-value marker (NaN). -/
abbrev Cell := Option ℚ

/-- A row of the raw dataframe, with the columns the notebook uses.
`country` and `year` are the key columns; they are present on every row
of the dataset. -/
structure RawRow where
  country : String
  year : Int
  co2 : Cell
  co2_per_capita : Cell
  coal_co2 : Cell
  oil_co2 : Cell
  gas_co2 : Cell
  population : Cell
  gdp : Cell
  deriving Repr, DecidableEq

/-- A row of the cleaned dataframe: the raw columns plus the appended
`gdp_per_capita` column.  Cells stay `Option`-typed so "contains no
missing-value marker" is expressible. -/
structure CleanRow where
  country : String
  year : Int
  co2 : Cell
  co2_per_capita : Cell
  coal_co2 : Cell
  oil_co2 : Cell
  gas_co2 : Cell
  population : Cell
  gdp : Cell
  gdp_per_capita : Cell
  deriving Repr, DecidableEq

/-- `fillna(0)` on a single cell: a missing value becomes `0`, a present
value is kept. -/
def fillna0 (c : Cell) : Cell := some (c.getD 0)

/-- Elementwise division as numpy performs it inside `np.where`:
division by zero (or by/of a missing value) yields an undefined marker. -/
def divCell (a b : Cell) : Cell :=
  match a, b with
  | some x, some y => if y = 0 then none else some (x / y)
  | _, _ => none

/-- The cleaning cell of the notebook, per row:
`df = df.fillna(0)` followed by
`df['gdp_per_capita'] = np.where(df['population']!=0,
df['gdp']/df['population'], 0)`.  The `where` guard and the division
both read the already-filled columns. -/
def cleanRow (r : RawRow) : CleanRow :=
  let pop := fillna0 r.population
  let g := fillna0 r.gdp
  { country := r.country
    year := r.year
    co2 := fillna0 r.co2
    co2_per_capita := fillna0 r.co2_per_capita
    coal_co2 := fillna0 r.coal_co2
    oil_co2 := fillna0 r.oil_co2
    gas_co2 := fillna0 r.gas_co2
    population := pop
    gdp := g
    gdp_per_capita := if pop ≠ some 0 then divCell g pop else some 0 }

/-- The whole cleaning step applied to the table. -/
def clean (df : List RawRow) : List CleanRow := df.map cleanRow

/-- The numeric cells of a raw row, in column order. -/
def RawRow.cells (r : RawRow) : List Cell :=
  [r.co2, r.co2_per_capita, r.coal_co2, r.oil_co2, r.gas_co2,
   r.population, r.gdp]

/-- The numeric cells of a cleaned row, in column order: the raw columns
followed by the appended `gdp_per_capita` column. -/
def CleanRow.cells (r : CleanRow) : List Cell :=
  [r.co2, r.co2_per_capita, r.coal_co2, r.oil_co2, r.gas_co2,
   r.population, r.gdp, r.gdp_per_capita]

/-- The numeric columns the raw table already has, for column-indexed
statements. -/
inductive Col
  | co2 | co2_per_capita | coal_co2 | oil_co2 | gas_co2
  | population | gdp
  deriving Repr, DecidableEq

/-- Read a raw row's cell by column name. -/
def RawRow.get (r : RawRow) : Col → Cell
  | .co2 => r.co2
  | .co2_per_capita => r.co2_per_capita
  | .coal_co2 => r.coal_co2
  | .oil_co2 => r.oil_co2
  | .gas_co2 => r.gas_co2
  | .population => r.population
  | .gdp => r.gdp

/-- Read a cleaned row's cell by (pre-existing) column name. -/
def CleanRow.get (r : CleanRow) : Col → Cell
  | .co2 => r.co2
  | .co2_per_capita => r.co2_per_capita
  | .coal_co2 => r.coal_co2
  | .oil_co2 => r.oil_co2
  | .gas_co2 => r.gas_co2
  | .population => r.population
  | .gdp => r.gdp

/-- The options of the `yaxis_co2` radio-button group:
`['co2', 'co2_per_capita']`. -/
inductive Co2Col
  | co2 | co2_per_capita
  deriving Repr, DecidableEq

/-- Read the widget-selected CO2 column from a cleaned row. -/
def Co2Col.get (y : Co2Col) (r : CleanRow) : Cell :=
  match y with
  | .co2 => r.co2
  | .co2_per_capita => r.co2_per_capita

/-- The options of the `yaxis_co2_source` radio-button group:
`['coal_co2', 'oil_co2', 'gas_co2']`. -/
inductive SourceCol
  | coal_co2 | oil_co2 | gas_co2
  deriving Repr, DecidableEq

/-- Read the widget-selected sub-source column from a cleaned row. -/
def SourceCol.get (c : SourceCol) (r : CleanRow) : Cell :=
  match c with
  | .coal_co2 => r.coal_co2
  | .oil_co2 => r.oil_co2
  | .gas_co2 => r.gas_co2

/-- The `continents` list of the notebook. -/
def continents : List String :=
  ["World", "Asia", "Oceania", "Europe", "Africa", "North America",
   "South America", "Antarctica"]

/-- The `continents_excl_world` list of the notebook. -/
def continents_excl_world : List String :=
  ["Asia", "Oceania", "Europe", "Africa", "North America",
   "South America", "Antarctica"]

/-- pandas `Series.mean()` over a group's cells: missing values are
skipped; an all-missing group yields the missing marker. -/
def meanCells (xs : List Cell) : Cell :=
  let v := xs.filterMap id
  if v.length = 0 then none else some (v.sum / v.length)

/-- pandas `Series.sum()` over a group's cells: missing values count as
zero, so the result is always present. -/
def sumCells (xs : List Cell) : Cell :=
  some (xs.filterMap id).sum

/-- `sort_values(by='year')`: insert into a year-sorted list. -/
def insertByYear (year : α → Int) (a : α) : List α → List α
  | [] => [a]
  | b :: l => if year a ≤ year b then a :: b :: l else b :: insertByYear year a l

/-- `sort_values(by='year')`: sort a list of rows by their year. -/
def sortByYear (year : α → Int) : List α → List α
  | [] => []
  | a :: l => insertByYear year a (sortByYear year l)

/-- A row of the grouped time-series view: group key `(country, year)`
and the aggregated value of the selected CO2 column. -/
structure GroupRow where
  country : String
  year : Int
  value : Cell
  deriving Repr, DecidableEq

/-- `co2_pipeline`: filter `year <= year_slider` and
`country.isin(continents)`, group by `(country, year)`, take the mean of
the widget-selected column, sort by year. -/
def co2_pipeline (df : List CleanRow) (year_slider : Int) (yaxis : Co2Col) :
    List GroupRow :=
  let filtered := df.filter fun r =>
    decide (r.year ≤ year_slider ∧ r.country ∈ continents)
  let keys := (filtered.map fun r => (r.country, r.year)).dedup
  let grouped := keys.map fun k =>
    { country := k.1, year := k.2
      value := meanCells
        ((filtered.filter fun r =>
          decide (r.country = k.1 ∧ r.year = k.2)).map yaxis.get) }
  sortByYear (fun g => g.year) grouped

/-- A row of the cross-section view: group key
`(country, year, gdp_per_capita)` and the aggregated `co2` value. -/
structure ScatterRow where
  country : String
  year : Int
  gdp_per_capita : Cell
  co2 : Cell
  deriving Repr, DecidableEq

/-- `co2_vs_gdp_scatterplot_pipeline`: filter `year == year_slider` and
`~country.isin(continents)`, group by `(country, year, gdp_per_capita)`,
take the mean of `co2`, sort by year. -/
def co2_vs_gdp_scatterplot_pipeline (df : List CleanRow) (year_slider : Int) :
    List ScatterRow :=
  let filtered := df.filter fun r =>
    decide (r.year = year_slider ∧ r.country ∉ continents)
  let keys := (filtered.map fun r => (r.country, r.year, r.gdp_per_capita)).dedup
  let grouped := keys.map fun k =>
    { country := k.1, year := k.2.1, gdp_per_capita := k.2.2
      co2 := meanCells
        ((filtered.filter fun r =>
          decide (r.country = k.1 ∧ r.year = k.2.1 ∧
            r.gdp_per_capita = k.2.2)).map fun r => r.co2) }
  sortByYear (fun g => g.year) grouped

/-- A row of the bar-chart view: group key `(year, country)` and the
aggregated value of the selected sub-source column. -/
structure BarRow where
  year : Int
  country : String
  value : Cell
  deriving Repr, DecidableEq

/-- `co2_source_bar_pipeline`: filter `year == year_slider` and
`country.isin(continents_excl_world)`, group by `(year, country)`, take
the sum of the widget-selected sub-source column, sort by year. -/
def co2_source_bar_pipeline (df : List CleanRow) (year_slider : Int)
    (yaxis : SourceCol) : List BarRow :=
  let filtered := df.filter fun r =>
    decide (r.year = year_slider ∧ r.country ∈ continents_excl_world)
  let keys := (filtered.map fun r => (r.year, r.country)).dedup
  let grouped := keys.map fun k =>
    { year := k.1, country := k.2
      value := sumCells
        ((filtered.filter fun r =>
          decide (r.year = k.1 ∧ r.country = k.2)).map yaxis.get) }
  sortByYear (fun g => g.year) grouped

/-- The notebook's global state after the cleaning cell: the single
dataframe `df` that `idf` wraps. -/
structure NotebookState where
  df : List CleanRow
  deriving Repr, DecidableEq

/-- Evaluating the time-series pipeline cell: reads the table, returns
the view and the state the cell leaves behind (no operation of the cell
is in-place). -/
def evalCo2PipelineCell (V : Int) (y : Co2Col) (s : NotebookState) :
    List GroupRow × NotebookState :=
  (co2_pipeline s.df V y, s)

/-- Evaluating the scatter-plot pipeline cell. -/
def evalScatterCell (V : Int) (s : NotebookState) :
    List ScatterRow × NotebookState :=
  (co2_vs_gdp_scatterplot_pipeline s.df V, s)

/-- Evaluating the bar-chart pipeline cell. -/
def evalBarCell (V : Int) (c : SourceCol) (s : NotebookState) :
    List BarRow × NotebookState :=
  (co2_source_bar_pipeline s.df V c, s)

/-- Running the three pipeline cells in notebook order, threading the
global state through. -/
def evalAllPipelines (V : Int) (y : Co2Col) (c : SourceCol)
    (s : NotebookState) :
    (List GroupRow × List ScatterRow × List BarRow) × NotebookState :=
  let (ts, s1) := evalCo2PipelineCell V y s
  let (sc, s2) := evalScatterCell V s1
  let (bar, s3) := evalBarCell V c s2
  ((ts, sc, bar), s3)

/-! ## Helper lemmas -/

lemma mem_insertByYear {α : Type} (year : α → Int) (g : α) (l : List α)
    (a : α) : a ∈ insertByYear year g l ↔ a = g ∨ a ∈ l := by
  induction l with
  | nil => simp [insertByYear]
  | cons b t ih =>
    by_cases h : year g ≤ year b
    · simp [insertByYear, h]
    · simp only [insertByYear, if_neg h, List.mem_cons, ih]
      tauto

lemma mem_sortByYear {α : Type} (year : α → Int) (l : List α) (a : α) :
    a ∈ sortByYear year l ↔ a ∈ l := by
  induction l with
  | nil => simp [sortByYear]
  | cons b t ih =>
    simp only [sortByYear, mem_insertByYear, List.mem_cons, ih]

lemma cleanRow_gdp_per_capita (r : RawRow) :
    (cleanRow r).gdp_per_capita =
      some (if r.population.getD 0 = 0 then 0
            else r.gdp.getD 0 / r.population.getD 0) := by
  by_cases h : r.population.getD 0 = 0
  · simp [cleanRow, fillna0, h]
  · simp [cleanRow, fillna0, divCell, h]

/-! ## Claims about the cleaning step -/

/-- C1: for every row of the cleaned table, `gdp_per_capita` equals
`gdp / population` when `population` is nonzero and `0` when it is zero;
the cell is always a present value, never the missing marker. -/
theorem clean_gdp_per_capita_spec (df : List RawRow) (r : CleanRow)
    (hr : r ∈ clean df) :
    ∃ p g : ℚ, r.population = some p ∧ r.gdp = some g ∧
      r.gdp_per_capita = some (if p = 0 then 0 else g / p) := by
  obtain ⟨r0, _, rfl⟩ := List.mem_map.mp hr
  refine ⟨r0.population.getD 0, r0.gdp.getD 0, rfl, rfl, ?_⟩
  exact cleanRow_gdp_per_capita r0

/-- Witness for C1: a concrete table with a zero-population row and a
nonzero-population row. -/
theorem clean_gdp_per_capita_spec_witness :
    (∃ p g : ℚ,
      (cleanRow ⟨"A", 2000, none, none, none, none, none, some 0, some 1000⟩).population = some p ∧
      (cleanRow ⟨"A", 2000, none, none, none, none, none, some 0, some 1000⟩).gdp = some g ∧
      (cleanRow ⟨"A", 2000, none, none, none, none, none, some 0, some 1000⟩).gdp_per_capita =
        some (if p = 0 then 0 else g / p)) ∧
    (∃ p g : ℚ,
      (cleanRow ⟨"B", 2000, none, none, none, none, none, some 100, some 1000⟩).population = some p ∧
      (cleanRow ⟨"B", 2000, none, none, none, none, none, some 100, some 1000⟩).gdp = some g ∧
      (cleanRow ⟨"B", 2000, none, none, none, none, none, some 100, some 1000⟩).gdp_per_capita =
        some (if p = 0 then 0 else g / p)) :=
  ⟨clean_gdp_per_capita_spec
      [⟨"A", 2000, none, none, none, none, none, some 0, some 1000⟩] _
      (by simp [clean]),
   clean_gdp_per_capita_spec
      [⟨"B", 2000, none, none, none, none, none, some 100, some 1000⟩] _
      (by simp [clean])⟩

/-- C2: after cleaning, no cell of any row is the missing-value
marker. -/
theorem clean_no_missing (df : List RawRow) (r : CleanRow)
    (hr : r ∈ clean df) : ∀ c ∈ r.cells, c.isSome := by
  obtain ⟨r0, _, rfl⟩ := List.mem_map.mp hr
  intro c hc
  have hg := cleanRow_gdp_per_capita r0
  simp only [CleanRow.cells, List.mem_cons, List.not_mem_nil, or_false] at hc
  rcases hc with h | h | h | h | h | h | h | h <;> subst h <;>
    first
      | (rw [hg]; rfl)
      | simp [cleanRow, fillna0]

/-- Witness for C2: the `gdp_per_capita` cell of a cleaned row of a
concrete table with missing values everywhere is present. -/
theorem clean_no_missing_witness :
    ((cleanRow ⟨"A", 2000, none, none, none, none, none, none, none⟩).gdp_per_capita).isSome :=
  clean_no_missing
    [⟨"A", 2000, none, none, none, none, none, none, none⟩]
    (cleanRow ⟨"A", 2000, none, none, none, none, none, none, none⟩)
    (by simp [clean])
    ((cleanRow ⟨"A", 2000, none, none, none, none, none, none, none⟩).gdp_per_capita)
    (by simp [CleanRow.cells])

/-- C6: if every present raw `population` and `gdp` value is
non-negative, then in every cleaned row the `population` and
`gdp_per_capita` cells hold non-negative values. -/
theorem clean_nonneg (df : List RawRow)
    (hpop : ∀ r ∈ df, ∀ p : ℚ, r.population = some p → 0 ≤ p)
    (hgdp : ∀ r ∈ df, ∀ g : ℚ, r.gdp = some g → 0 ≤ g)
    (r : CleanRow) (hr : r ∈ clean df) :
    (∃ p : ℚ, r.population = some p ∧ 0 ≤ p) ∧
    (∃ q : ℚ, r.gdp_per_capita = some q ∧ 0 ≤ q) := by
  obtain ⟨r0, hr0, rfl⟩ := List.mem_map.mp hr
  have hp : (0 : ℚ) ≤ r0.population.getD 0 := by
    cases h : r0.population with
    | none => simp
    | some p => simpa using hpop r0 hr0 p h
  have hg : (0 : ℚ) ≤ r0.gdp.getD 0 := by
    cases h : r0.gdp with
    | none => simp
    | some g => simpa using hgdp r0 hr0 g h
  refine ⟨⟨r0.population.getD 0, rfl, hp⟩, ?_⟩
  refine ⟨_, cleanRow_gdp_per_capita r0, ?_⟩
  by_cases h : r0.population.getD 0 = 0
  · simp [h]
  · simpa [h] using div_nonneg hg hp

/-- Witness for C6: a concrete non-negative table. -/
theorem clean_nonneg_witness :
    (∃ p : ℚ,
      (cleanRow ⟨"A", 2000, none, none, none, none, none, some 100, some 1000⟩).population = some p ∧ 0 ≤ p) ∧
    (∃ q : ℚ,
      (cleanRow ⟨"A", 2000, none, none, none, none, none, some 100, some 1000⟩).gdp_per_capita = some q ∧ 0 ≤ q) :=
  clean_nonneg
    [⟨"A", 2000, none, none, none, none, none, some 100, some 1000⟩]
    (by intro r hr p hp; simp at hr; subst hr; simp at hp; simp [← hp])
    (by intro r hr g hg; simp at hr; subst hr; simp at hg; simp [← hg])
    _ (by simp [clean])

/-- C10: a row whose raw `gdp` is missing gets `gdp_per_capita = 0`
after cleaning (the ratio is computed from the filled values), whatever
its population. -/
theorem missing_gdp_gives_zero_ratio (r : RawRow) (h : r.gdp = none) :
    (cleanRow r).gdp_per_capita = some 0 := by
  have := cleanRow_gdp_per_capita r
  rw [h] at this
  simp only [Option.getD_none] at this
  by_cases hp : r.population.getD 0 = 0
  · simpa [hp] using this
  · simpa [hp, zero_div] using this

/-- Witness for C10: missing gdp, nonzero population, ratio zero. -/
theorem missing_gdp_gives_zero_ratio_witness :
    (cleanRow ⟨"A", 2000, none, none, none, none, none, some 100, none⟩).gdp_per_capita = some 0 :=
  missing_gdp_gives_zero_ratio
    ⟨"A", 2000, none, none, none, none, none, some 100, none⟩ rfl

/-- C7: cleaning changes no present cell of a pre-existing column, keeps
the key columns, and appends exactly one new column (`gdp_per_capita`)
after the existing ones. -/
theorem clean_frame (r : RawRow) :
    (cleanRow r).country = r.country ∧ (cleanRow r).year = r.year ∧
    (∀ col : Col, ∀ v : ℚ, r.get col = some v → (cleanRow r).get col = some v) ∧
    (cleanRow r).cells = r.cells.map fillna0 ++ [(cleanRow r).gdp_per_capita] := by
  refine ⟨rfl, rfl, ?_, rfl⟩
  intro col v h
  cases col <;> simp_all [RawRow.get, CleanRow.get, cleanRow, fillna0]

/-- Witness for C7: a concrete row; its present `gdp` cell is kept
as-is by the cleaning step. -/
theorem clean_frame_witness :
    (cleanRow ⟨"A", 2000, none, none, none, none, none, some 100, some 1000⟩).get .gdp = some 1000 :=
  (clean_frame ⟨"A", 2000, none, none, none, none, none, some 100, some 1000⟩).2.2.1
    .gdp 1000 rfl

/-! ## Claims about the derived pipelines -/

/-- C3: every row of the grouped time-series view has `year ≤ V` and a
country drawn from the `continents` list. -/
theorem co2_pipeline_rows (df : List CleanRow) (V : Int) (y : Co2Col)
    (g : GroupRow) (hg : g ∈ co2_pipeline df V y) :
    g.year ≤ V ∧ g.country ∈ continents := by
  simp only [co2_pipeline, mem_sortByYear, List.mem_map, List.mem_dedup,
    List.mem_filter, decide_eq_true_iff] at hg
  obtain ⟨k, ⟨r, ⟨_, hy, hc⟩, hk⟩, hgg⟩ := hg
  subst hk
  subst hgg
  exact ⟨hy, hc⟩

/-- Witness for C3: a one-row table with an Asia row at year 1850. -/
theorem co2_pipeline_rows_witness :
    (⟨"Asia", 1850, some 5⟩ : GroupRow).year ≤ 1850 ∧
    (⟨"Asia", 1850, some 5⟩ : GroupRow).country ∈ continents :=
  co2_pipeline_rows
    [⟨"Asia", 1850, some 5, some 1, some 2, some 3, some 4, some 100,
      some 1000, some 10⟩] 1850 .co2 _
    (by simp [co2_pipeline, continents, meanCells, sortByYear, insertByYear,
      Co2Col.get, List.filter, List.dedup, List.pwFilter])

/-- C4: every row of the cross-section view has `year = V` and a
country that is not in the `continents` list. -/
theorem scatter_pipeline_rows (df : List CleanRow) (V : Int)
    (g : ScatterRow) (hg : g ∈ co2_vs_gdp_scatterplot_pipeline df V) :
    g.year = V ∧ g.country ∉ continents := by
  simp only [co2_vs_gdp_scatterplot_pipeline, mem_sortByYear, List.mem_map,
    List.mem_dedup, List.mem_filter, decide_eq_true_iff] at hg
  obtain ⟨k, ⟨r, ⟨_, hy, hc⟩, hk⟩, hgg⟩ := hg
  subst hk
  subst hgg
  exact ⟨hy, hc⟩

/-- Witness for C4: a one-row table with a France row at year 1850. -/
theorem scatter_pipeline_rows_witness :
    (⟨"France", 1850, some 10, some 5⟩ : ScatterRow).year = 1850 ∧
    (⟨"France", 1850, some 10, some 5⟩ : ScatterRow).country ∉ continents :=
  scatter_pipeline_rows
    [⟨"France", 1850, some 5, some 1, some 2, some 3, some 4, some 100,
      some 1000, some 10⟩] 1850 _
    (by simp [co2_vs_gdp_scatterplot_pipeline, continents, meanCells,
      sortByYear, insertByYear, List.filter, List.dedup, List.pwFilter])

lemma bar_pipeline_mem (df : List CleanRow) (V : Int) (c : SourceCol)
    (b : BarRow) (hb : b ∈ co2_source_bar_pipeline df V c) :
    b.year = V ∧ b.country ∈ continents_excl_world ∧
    b.value = sumCells ((df.filter fun r =>
      decide (r.year = V ∧ r.country = b.country)).map c.get) := by
  simp only [co2_source_bar_pipeline, mem_sortByYear, List.mem_map,
    List.mem_dedup, List.mem_filter, decide_eq_true_iff] at hb
  obtain ⟨k, ⟨r, ⟨_, hy, hc⟩, hk⟩, hbb⟩ := hb
  subst hk
  subst hbb
  subst hy
  refine ⟨rfl, hc, ?_⟩
  show sumCells _ = sumCells _
  congr 1
  rw [List.filter_filter]
  congr 1
  apply List.filter_congr
  intro a _
  by_cases h : a.year = r.year ∧ a.country = r.country
  · have hac : a.country ∈ continents_excl_world := h.2 ▸ hc
    simp [h.1, h.2, hac, hc]
  · simp only [decide_eq_true_iff] at *
    simp [h]

/-- A concrete cleaned table for the bar-pipeline witnesses: two Asia
rows at year 1850 with coal values 2 and 3. -/
def barWitnessTable : List CleanRow :=
  [⟨"Asia", 1850, some 9, some 1, some 2, some 3, some 4, some 100,
    some 1000, some 10⟩,
   ⟨"Asia", 1850, some 9, some 1, some 3, some 3, some 4, some 100,
    some 1000, some 10⟩]

/-- The bar-view row the witnesses exhibit: the 1850 Asia group with
coal value 2 + 3 = 5. -/
def barWitnessRow : BarRow := ⟨1850, "Asia", some 5⟩

/-- C5: the bar pipeline is a per-region aggregate, over the regions of
`continents_excl_world`, of the widget-selected sub-source column
(`SourceCol` ranges over exactly the three options `coal_co2`,
`oil_co2`, `gas_co2`), restricted to the single selected year: every
row of the view has `year = V`, a region country, and as value the
aggregate of column `c` over the matching cleaned-table rows. -/
theorem bar_pipeline_aggregate (df : List CleanRow) (V : Int)
    (c : SourceCol) (b : BarRow) (hb : b ∈ co2_source_bar_pipeline df V c) :
    b.year = V ∧ b.country ∈ continents_excl_world ∧
    b.value = sumCells ((df.filter fun r =>
      decide (r.year = V ∧ r.country = b.country)).map c.get) :=
  bar_pipeline_mem df V c b hb

/-- Witness for C5: the two-row Asia table; the bar value aggregates
both rows of the group. -/
theorem bar_pipeline_aggregate_witness :
    barWitnessRow.year = 1850 ∧
    barWitnessRow.country ∈ continents_excl_world ∧
    barWitnessRow.value = sumCells ((barWitnessTable.filter fun r =>
      decide (r.year = 1850 ∧ r.country = barWitnessRow.country)).map
      SourceCol.coal_co2.get) :=
  bar_pipeline_aggregate barWitnessTable 1850 .coal_co2 barWitnessRow
    (by norm_num [co2_source_bar_pipeline, barWitnessTable, barWitnessRow,
      continents_excl_world, sumCells, sortByYear, insertByYear,
      SourceCol.get, List.filter, List.dedup, List.pwFilter,
      List.filterMap_cons, List.filterMap_nil, id])

/-- C9: every row of the bar view draws its country from the
seven-element list without `'World'` (while the time-series `continents`
list does contain `'World'`), and its value is the SUM of the selected
sub-source column over the matching cleaned rows. -/
theorem bar_pipeline_no_world_sum (df : List CleanRow) (V : Int)
    (c : SourceCol) (b : BarRow) (hb : b ∈ co2_source_bar_pipeline df V c) :
    b.country ∈ continents_excl_world ∧ b.country ≠ "World" ∧
    continents_excl_world.length = 7 ∧ "World" ∈ continents ∧
    "World" ∉ continents_excl_world ∧
    b.value = some (((df.filter fun r =>
      decide (r.year = V ∧ r.country = b.country)).map c.get).filterMap id).sum := by
  obtain ⟨_, hc, hv⟩ := bar_pipeline_mem df V c b hb
  have hw : "World" ∉ continents_excl_world := by decide
  exact ⟨hc, fun h => hw (h ▸ hc), by decide, by decide, hw, hv⟩

/-- Witness for C9: the same two-row Asia table; the value is the sum
`2 + 3 = 5`, not the mean `5/2`. -/
theorem bar_pipeline_no_world_sum_witness :
    barWitnessRow.country ∈ continents_excl_world ∧
    barWitnessRow.country ≠ "World" ∧
    continents_excl_world.length = 7 ∧ "World" ∈ continents ∧
    "World" ∉ continents_excl_world ∧
    barWitnessRow.value = some (((barWitnessTable.filter fun r =>
      decide (r.year = 1850 ∧ r.country = barWitnessRow.country)).map
      SourceCol.coal_co2.get).filterMap id).sum :=
  bar_pipeline_no_world_sum barWitnessTable 1850 .coal_co2 barWitnessRow
    (by norm_num [co2_source_bar_pipeline, barWitnessTable, barWitnessRow,
      continents_excl_world, sumCells, sortByYear, insertByYear,
      SourceCol.get, List.filter, List.dedup, List.pwFilter,
      List.filterMap_cons, List.filterMap_nil, id])

/-- C8: evaluating the three pipeline cells, in notebook order, leaves
the cleaned global table exactly as it was: the final state, and the
state after each individual cell, equal the starting state, so every
row and every column of `s.df` is unchanged. -/
theorem pipelines_leave_table_unchanged (V : Int) (y : Co2Col)
    (c : SourceCol) (s : NotebookState) :
    (evalAllPipelines V y c s).2 = s ∧
    (evalAllPipelines V y c s).2.df = s.df ∧
    (evalCo2PipelineCell V y s).2 = s ∧
    (evalScatterCell V s).2 = s ∧
    (evalBarCell V c s).2 = s :=
  ⟨rfl, rfl, rfl, rfl, rfl⟩
